import Mathlib

/-!
Verification development for the R-assistant workflow engine and static
code analyzer.

Shallow embedding of:
* `r_assistant/services/code_analyzer.py` (`RCodeAnalyzer`)
* `r_assistant/services/langgraph_workflow.py` (`WorkflowEngine`)
* `r_assistant/services/langgraph_agents.py` (the four agents)
* `r_assistant/services/langgraph_service.py` (demo / fallback path)
* `r_assistant/services/ai_service.py` (`DeepSeekService.chat` message window)

Modelling conventions:
* Python `datetime` values are modelled as rational numbers (seconds); each
  in-node `datetime.now()` call is modelled by the node's time parameter.
* Python regular expressions over the source text are modelled by explicit
  ASCII scanners (`\w`, `\b`, `\d`, `\s` restricted to ASCII, which is what
  the analyzed R code uses); `re.findall` scanning is non-overlapping
  left-to-right, which the fuel-based scanners below reproduce.
* The generative-text backend (`self.llm.ainvoke`) is a parameter of type
  `LLM`; a raised exception is an `Except.error`.
* The prompt resolver (`advanced_prompt_manager.get_prompt`) never throws
  in the source (it falls back to a default string), so it is modelled as an
  abstract total function parameter.
* Python `float` arithmetic on the quality score is exact here (all
  deductions are integers; the comment-ratio comparisons are modelled by
  exact rational comparison).
-/

set_option autoImplicit false

namespace RAssistant

/-! ### ASCII character classes used by the Python regexes -/

/-- ASCII model of the regex class `\w` = `[a-zA-Z0-9_]`. -/
def isWordChar (c : Char) : Bool :=
  c.isAlphanum || c == '_'

/-- ASCII model of the regex class `\s` (Python whitespace). -/
def isPySpace (c : Char) : Bool :=
  c == ' ' || c == '\t' || c == '\n' || c == '\r' || c == '\x0b' || c == '\x0c'

/-- `str.strip()` on ASCII whitespace. -/
def pyStrip (s : String) : String :=
  ⟨((s.data.dropWhile isPySpace).reverse.dropWhile isPySpace).reverse⟩

/-- Match the literal `pat` at the head of `l`; on success return the rest. -/
def matchLit : List Char → List Char → Option (List Char)
  | [], l => some l
  | _, [] => none
  | p :: ps, c :: cs => if p == c then matchLit ps cs else none

/-- `needle` occurs somewhere in `l`. -/
def containsAux (needle : List Char) : List Char → Bool
  | [] => needle.isEmpty
  | c :: rest => (matchLit needle (c :: rest)).isSome || containsAux needle rest

/-- Python `needle in hay` substring test. -/
def strContains (hay needle : String) : Bool :=
  containsAux needle.data hay.data

/-! ### Generic non-overlapping left-to-right regex scan (`re.findall`)

A matcher `m prev l` tries to match a pattern at the head of `l`, where
`prev` is the character immediately before `l` (used for `\b` word
boundaries; a non-word sentinel is used at the start of the string).  On
success it returns the captured value, the last character the match
consumed, and the rest of the input.  Every matcher consumes at least one
character, so fuel equal to the input length suffices. -/

def scanFindAux {α : Type} (m : Char → List Char → Option (α × Char × List Char)) :
    Nat → Char → List Char → List α
  | 0, _, _ => []
  | _ + 1, _, [] => []
  | fuel + 1, prev, c :: rest =>
    match m prev (c :: rest) with
    | some (a, last, rest2) => a :: scanFindAux m fuel last rest2
    | none => scanFindAux m fuel c rest

/-- All captures of a pattern in a string, in order. -/
def scanFind {α : Type} (m : Char → List Char → Option (α × Char × List Char))
    (s : String) : List α :=
  scanFindAux m s.data.length ' ' s.data

/-- Number of non-overlapping matches of a pattern in a string. -/
def countMatches (m : Char → List Char → Option (Unit × Char × List Char))
    (s : String) : Nat :=
  (scanFind m s).length

/-- Matcher for `\bKW\s*C` (keyword, optional whitespace, one required
character), as in the complexity patterns `\bif\s*\(` and `\brepeat\s*\{`. -/
def matchKwThen (kw : String) (ch : Char) (prev : Char) (l : List Char) :
    Option (Unit × Char × List Char) :=
  if isWordChar prev then none
  else
    match matchLit kw.data l with
    | none => none
    | some rest =>
      match rest.dropWhile isPySpace with
      | [] => none
      | d :: rest2 => if d == ch then some ((), ch, rest2) else none

/-- Matcher for a literal with no word-boundary requirement (`\&\&`, `\|\|`). -/
def matchBare (pat : String) (lastc : Char) (_prev : Char) (l : List Char) :
    Option (Unit × Char × List Char) :=
  match matchLit pat.data l with
  | none => none
  | some rest => some ((), lastc, rest)

/-! ### `RCodeAnalyzer._calculate_complexity` / `_calculate_max_nesting` -/

/-- Occurrences of `\bif\s*\(` in the code. -/
def countIfParen (s : String) : Nat := countMatches (matchKwThen "if" '(') s

/-- Occurrences of `\bfor\s*\(` in the code. -/
def countForParen (s : String) : Nat := countMatches (matchKwThen "for" '(') s

/-- Occurrences of `\bwhile\s*\(` in the code. -/
def countWhileParen (s : String) : Nat := countMatches (matchKwThen "while" '(') s

/-- Occurrences of `\brepeat\s*\{` in the code. -/
def countRepeatBrace (s : String) : Nat := countMatches (matchKwThen "repeat" '\x7b') s

/-- Occurrences of `\&\&` in the code. -/
def countAndAnd (s : String) : Nat := countMatches (matchBare "&&" '&') s

/-- Occurrences of `\|\|` in the code. -/
def countOrOr (s : String) : Nat := countMatches (matchBare "||" '|') s

/-- `complexity = 1 + Σ matches of the six control-structure patterns`. -/
def cyclomaticComplexity (code : String) : Nat :=
  1 + countIfParen code + countForParen code + countWhileParen code
    + countRepeatBrace code + countAndAnd code + countOrOr code

/-- `_calculate_max_nesting`: running brace balance, floored at zero. -/
def maxNestingAux : List Char → Nat → Nat → Nat
  | [], _, maxD => maxD
  | c :: rest, cur, maxD =>
    if c == '\x7b' then maxNestingAux rest (cur + 1) (max maxD (cur + 1))
    else if c == '\x7d' then maxNestingAux rest (cur - 1) maxD
    else maxNestingAux rest cur maxD

/-- Maximum nesting depth of the code (`max(0, depth - 1)` on `}` is Nat
subtraction here). -/
def maxNesting (code : String) : Nat :=
  maxNestingAux code.data 0 0

/-- Result of `_calculate_complexity`. -/
structure ComplexityResult where
  cyclomatic_complexity : Nat
  max_nesting_depth : Nat
  complexity_level : String
deriving Repr, DecidableEq

/-- `RCodeAnalyzer._calculate_complexity`. -/
def calculateComplexity (code : String) : ComplexityResult :=
  let complexity := cyclomaticComplexity code
  { cyclomatic_complexity := complexity
    max_nesting_depth := maxNesting code
    complexity_level :=
      if complexity > 20 then "high"
      else if complexity > 10 then "medium"
      else "low" }

/-! ### `RCodeAnalyzer._calculate_metrics` -/

/-- `CodeMetrics` dataclass (the two score fields keep their `0.0` defaults:
`_calculate_metrics` never writes them). -/
structure CodeMetrics where
  lines_of_code : Nat
  comment_lines : Nat
  blank_lines : Nat
  functions_count : Nat
  complexity_score : ℚ
  readability_score : ℚ
deriving Repr, DecidableEq

/-- Matcher for the function-definition pattern `\b\w+\s*<-\s*function\s*\(`. -/
def matchFunctionDef (prev : Char) (l : List Char) :
    Option (Unit × Char × List Char) :=
  if isWordChar prev then none
  else
    let name := l.takeWhile isWordChar
    if name.isEmpty then none
    else
      let rest := (l.dropWhile isWordChar).dropWhile isPySpace
      match matchLit "<-".data rest with
      | none => none
      | some rest2 =>
        match matchLit "function".data (rest2.dropWhile isPySpace) with
        | none => none
        | some rest3 =>
          match rest3.dropWhile isPySpace with
          | [] => none
          | d :: rest4 => if d == '(' then some ((), '(', rest4) else none

/-- Line classification loop of `_calculate_metrics`. -/
def countLineKinds (lines : List String) : Nat × Nat × Nat :=
  lines.foldl
    (fun acc line =>
      let stripped := pyStrip line
      if stripped = "" then (acc.1, acc.2.1, acc.2.2 + 1)
      else if stripped.startsWith "#" then (acc.1, acc.2.1 + 1, acc.2.2)
      else (acc.1 + 1, acc.2.1, acc.2.2))
    (0, 0, 0)

/-- `RCodeAnalyzer._calculate_metrics`. -/
def calculateMetrics (code : String) : CodeMetrics :=
  let lines := code.splitOn "\n"
  let kinds := countLineKinds lines
  { lines_of_code := kinds.1
    comment_lines := kinds.2.1
    blank_lines := kinds.2.2
    functions_count := countMatches matchFunctionDef code
    complexity_score := 0
    readability_score := 0 }

/-! ### `RCodeAnalyzer._detect_quality_issues` -/

/-- One entry of the quality-issues list. -/
structure QualityIssue where
  type : String
  line : Nat
  message : String
  severity : String
deriving Repr, DecidableEq

/-- The operator class `[\+\-\*\/\=]` of the spacing pattern. -/
def isOpChar (c : Char) : Bool :=
  c == '+' || c == '-' || c == '*' || c == '/' || c == '='

/-- `re.search(r'[a-zA-Z0-9][\+\-\*\/\=][a-zA-Z0-9]', l)`. -/
def hasSpacingIssue : List Char → Bool
  | a :: b :: c :: rest =>
    (a.isAlphanum && isOpChar b && c.isAlphanum) || hasSpacingIssue (b :: c :: rest)
  | _ => false

/-- `re.search(r'\b\d{4,}\b', l)`: a maximal digit run of length `≥ 4`
delimited by word boundaries. -/
def hasMagicNumberAux : Char → List Char → Bool
  | _, [] => false
  | prev, c :: rest =>
    if !isWordChar prev && c.isDigit then
      let run := (c :: rest).takeWhile Char.isDigit
      let after := (c :: rest).dropWhile Char.isDigit
      if run.length ≥ 4 && !isWordChar (after.headD ' ') then true
      else hasMagicNumberAux c rest
    else hasMagicNumberAux c rest

/-- `re.search(r'\b\d{4,}\b', s)` on a string. -/
def hasMagicNumber (s : String) : Bool :=
  hasMagicNumberAux ' ' s.data

/-- Per-line checks of `_detect_quality_issues` (line numbers start at 1). -/
def lineIssues (i : Nat) (line : String) : List QualityIssue :=
  let stripped := pyStrip line
  (if line.length > 100 then
    [⟨"line_length", i,
      "第" ++ toString i ++ "行过长 (" ++ toString line.length ++
        " 字符，建议不超过100字符)", "warning"⟩]
   else []) ++
  (if hasSpacingIssue stripped.data then
    [⟨"spacing", i, "第" ++ toString i ++ "行运算符周围缺少空格", "style"⟩]
   else []) ++
  (if hasMagicNumber stripped && !stripped.startsWith "#" then
    [⟨"magic_number", i, "第" ++ toString i ++ "行包含魔法数字，建议使用常量",
      "warning"⟩]
   else [])

/-- `RCodeAnalyzer._detect_quality_issues`. -/
def detectQualityIssues (code : String) : List QualityIssue :=
  let lines := code.splitOn "\n"
  let perLine := (lines.enum.map fun p => lineIssues (p.1 + 1) p.2).flatten
  let totalLines := (lines.filter fun l => pyStrip l ≠ "").length
  let commentLines := (lines.filter fun l => (pyStrip l).startsWith "#").length
  perLine ++
    (if totalLines > 10 ∧ (commentLines : ℚ) / (totalLines : ℚ) < 1/10 then
      [⟨"lack_of_comments", 0, "代码缺少足够的注释（建议注释率不低于10%）",
        "warning"⟩]
     else [])

/-! ### `RCodeAnalyzer._check_style` -/

/-- One entry of the style-issues list. -/
structure StyleIssue where
  type : String
  message : String
  severity : String
deriving Repr, DecidableEq

/-- Matcher for `\b([a-zA-Z_][a-zA-Z0-9_]*)\s*<-`, capturing the name. -/
def matchVarAssign (prev : Char) (l : List Char) :
    Option (String × Char × List Char) :=
  if isWordChar prev then none
  else
    match l with
    | [] => none
    | c :: _ =>
      if c.isAlpha || c == '_' then
        let name := l.takeWhile isWordChar
        let rest := (l.dropWhile isWordChar).dropWhile isPySpace
        match matchLit "<-".data rest with
        | none => none
        | some rest2 => some (⟨name⟩, '-', rest2)
      else none

/-- Matcher for `\b([a-zA-Z_][a-zA-Z0-9_]*)\s*<-\s*function`, capturing the
name (note: no trailing parenthesis in this pattern in the source). -/
def matchFunAssign (prev : Char) (l : List Char) :
    Option (String × Char × List Char) :=
  if isWordChar prev then none
  else
    match l with
    | [] => none
    | c :: _ =>
      if c.isAlpha || c == '_' then
        let name := l.takeWhile isWordChar
        let rest := (l.dropWhile isWordChar).dropWhile isPySpace
        match matchLit "<-".data rest with
        | none => none
        | some rest2 =>
          match matchLit "function".data (rest2.dropWhile isPySpace) with
          | none => none
          | some rest3 => some (⟨name⟩, 'n', rest3)
      else none

/-- `re.match(r'^[a-z][a-z0-9_]*$', s)`. -/
def isSnakeLower (s : String) : Bool :=
  match s.data with
  | [] => false
  | c :: rest => c.isLower && rest.all fun d => d.isLower || d.isDigit || d == '_'

/-- `re.match(r'^[A-Z][A-Z0-9_]*$', s)`. -/
def isAllCaps (s : String) : Bool :=
  match s.data with
  | [] => false
  | c :: rest => c.isUpper && rest.all fun d => d.isUpper || d.isDigit || d == '_'

/-- `RCodeAnalyzer._check_style`. -/
def checkStyle (code : String) : List StyleIssue :=
  let vars := scanFind matchVarAssign code
  let varIssues := (vars.filter fun v => !isSnakeLower v && !isAllCaps v).map
    fun v =>
      ⟨"naming_convention",
        "变量 \"" ++ v ++ "\" 不符合命名规范（建议使用小写字母和下划线）",
        "style"⟩
  let functions := scanFind matchFunAssign code
  let funIssues := (functions.filter fun f => !isSnakeLower f).map
    fun f =>
      ⟨"function_naming",
        "函数 \"" ++ f ++ "\" 不符合命名规范（建议使用小写字母和下划线）",
        "style"⟩
  varIssues ++ funIssues

/-! ### `RCodeAnalyzer._calculate_quality_score` and `analyze` -/

/-- `RCodeAnalyzer._calculate_quality_score` (float arithmetic is exact
rational arithmetic: all deductions are integers). -/
def calculateQualityScore (metrics : CodeMetrics) (qualityIssues : List QualityIssue)
    (styleIssues : List StyleIssue) (complexity : ComplexityResult) : ℚ :=
  let base : ℚ := 100
  let base := qualityIssues.foldl
    (fun b issue =>
      if issue.severity = "error" then b - 15
      else if issue.severity = "warning" then b - 8
      else if issue.severity = "style" then b - 3
      else b)
    base
  let base := styleIssues.foldl (fun b _ => b - 2) base
  let base :=
    if complexity.complexity_level = "high" then base - 20
    else if complexity.complexity_level = "medium" then base - 10
    else base
  let base :=
    if metrics.lines_of_code > 0 then
      let commentRatio : ℚ :=
        (metrics.comment_lines : ℚ) / ((metrics.lines_of_code : ℚ) + (metrics.comment_lines : ℚ))
      if commentRatio > 1/5 then base + 5
      else if commentRatio < 1/20 then base - 10
      else base
    else base
  max 0 (min 100 base)

/-- `RCodeAnalyzer._generate_recommendations`. -/
def generateRecommendations (qualityIssues : List QualityIssue)
    (styleIssues : List StyleIssue) (complexity : ComplexityResult) : List String :=
  (if qualityIssues ≠ [] then ["修复代码质量问题，特别关注错误和警告级别的问题"] else []) ++
  (if styleIssues ≠ [] then ["统一代码风格，遵循R语言编码规范"] else []) ++
  (if complexity.complexity_level = "high" then
    ["考虑重构复杂的函数，将其分解为更小的函数"] else []) ++
  (if complexity.max_nesting_depth > 4 then ["减少代码嵌套层次，提高可读性"] else []) ++
  ["添加更多有意义的注释", "使用描述性的变量和函数名", "考虑添加错误处理机制",
   "遵循DRY（Don\x27t Repeat Yourself）原则"]

/-- Result of `RCodeAnalyzer.analyze`.  Every helper of `analyze` is a total
function, so the `except` branch of the source (returning
`{error: message, quality_score: 0}`) is unreachable and `analyze` never
throws. -/
structure AnalysisResult where
  metrics : CodeMetrics
  quality_score : ℚ
  quality_issues : List QualityIssue
  style_issues : List StyleIssue
  complexity : ComplexityResult
  recommendations : List String
deriving Repr, DecidableEq

/-- `RCodeAnalyzer.analyze`. -/
def analyze (code : String) : AnalysisResult :=
  let metrics := calculateMetrics code
  let qualityIssues := detectQualityIssues code
  let styleIssues := checkStyle code
  let complexity := calculateComplexity code
  { metrics := metrics
    quality_score := calculateQualityScore metrics qualityIssues styleIssues complexity
    quality_issues := qualityIssues
    style_issues := styleIssues
    complexity := complexity
    recommendations := generateRecommendations qualityIssues styleIssues complexity }

/-! ### `workflow_state.py`: `Message`, `CodeSolution`, `WorkflowState`

`datetime` values are rationals (seconds).  The `TypedDict` keys that the
engine adds dynamically (`problem_type`, `status`, `summary`,
`processing_time`) are `Option` fields that start as `none`; `Message`'s
`metadata` dict (always empty in the engine) is omitted. -/

/-- `Message` pydantic model. -/
structure Message where
  role : String
  content : String
  timestamp : ℚ
deriving Repr, DecidableEq

/-- `CodeSolution` pydantic model. -/
structure CodeSolution where
  title : String
  code : String
  explanation : String
  difficulty : String
  packages : List String
  filename : String
deriving Repr, DecidableEq

/-- The fixed dict returned by `CodeAnalyzerAgent._parse_analysis`. -/
structure AgentAnalysis where
  analysis_result : String
  quality_score : ℚ
  suggestions : List String
  complexity : String
  maintainability : String
deriving Repr, DecidableEq

/-- `WorkflowState` TypedDict. -/
structure WorkflowState where
  session_id : String
  request_id : String
  request_type : String
  user_input : String
  original_code : Option String
  problem_description : Option String
  conversation_history : List Message
  ai_response : Option String
  code_solutions : List CodeSolution
  explanation_result : Option String
  code_analysis : Option AgentAnalysis
  quality_score : Option ℚ
  complexity_analysis : Option String
  processing_steps : List String
  start_time : ℚ
  end_time : Option ℚ
  total_tokens : Nat
  errors : List String
  warnings : List String
  next_step : Option String
  workflow_complete : Bool
  problem_type : Option String
  status : Option String
  summary : Option String
  processing_time : Option ℚ
deriving Repr, DecidableEq

/-- A `processing_steps` entry `f"[{datetime.now()}] msg"`. -/
def stepStr (t : ℚ) (msg : String) : String :=
  "[" ++ toString t ++ "] " ++ msg

/-! ### `langgraph_agents.py`: message building and the four agents -/

/-- Role of a langchain chat message
(`SystemMessage` / `HumanMessage` / `AIMessage`). -/
inductive ChatRole where
  | system
  | human
  | ai
deriving Repr, DecidableEq

/-- A langchain chat message. -/
structure ChatMessage where
  role : ChatRole
  content : String
deriving Repr, DecidableEq

/-- The generative-text backend (`self.llm.ainvoke`): an exception raised by
the call is an `Except.error` carrying `str(e)`. -/
def LLM : Type := List ChatMessage → Except String String

/-- History-entry conversion in `BaseAgent.create_messages`: `user` turns
become `HumanMessage`, `assistant` turns become `AIMessage`, anything else
is skipped. -/
def msgToChat (m : Message) : Option ChatMessage :=
  if m.role = "user" then some ⟨ChatRole.human, m.content⟩
  else if m.role = "assistant" then some ⟨ChatRole.ai, m.content⟩
  else none

/-- Total version of `msgToChat` on histories whose roles are all
`user`/`assistant`. -/
def msgToChatTotal (m : Message) : ChatMessage :=
  if m.role = "user" then ⟨ChatRole.human, m.content⟩
  else ⟨ChatRole.ai, m.content⟩

/-- `BaseAgent.create_messages`: system prompt, then every history entry
with role `user` or `assistant` (other roles are skipped), in list order —
no truncation and no reordering. -/
def createMessages (systemPrompt : String) (s : WorkflowState) : List ChatMessage :=
  ⟨ChatRole.system, systemPrompt⟩ :: s.conversation_history.filterMap msgToChat

/-- The message list the `ConversationAgent` sends to the backend (the
`messages` local of `ConversationAgent.process`): `create_messages` output
plus the current user message. -/
def conversationAgentMessages (systemPrompt : String) (s : WorkflowState) :
    List ChatMessage :=
  createMessages systemPrompt s ++ [⟨ChatRole.human, s.user_input⟩]

/-- `CodeExplainerAgent.process`.  `userPrompt` models
`advanced_prompt_manager.get_prompt('code_explainer', 'user_template', code=code, ...)`
(the prompt resolver never throws), `systemPrompt` the agent's system
prompt, `t` the node's `datetime.now()`. -/
def explainerProcess (llm : LLM) (userPrompt : String → String)
    (systemPrompt : String) (t : ℚ) (s : WorkflowState) : WorkflowState :=
  let s := { s with processing_steps := s.processing_steps ++ [stepStr t "开始代码解释"] }
  let code := s.user_input
  if code = "" then
    { s with errors := s.errors ++ ["没有提供要解释的代码"] }
  else
    let messages := createMessages systemPrompt s ++ [⟨ChatRole.human, userPrompt code⟩]
    match llm messages with
    | Except.ok content =>
      { s with
          explanation_result := some content
          ai_response := some content
          processing_steps := s.processing_steps ++ [stepStr t "代码解释完成"] }
    | Except.error e =>
      { s with errors := s.errors ++ ["代码解释失败: " ++ e] }

/-- `ProblemSolverAgent._parse_solutions`: three canned solutions; only the
first embeds the problem text, the backend response is ignored. -/
def parseSolutions (response : String) (problem : String) : List CodeSolution :=
  let _ := response
  [{ title := "基础解决方案"
     code := "# 基于您的问题：" ++ problem ++
       "\n\n# 方案一：基础实现\nlibrary(ggplot2)\ndata <- read.csv(\"data.csv\")\nresult <- summary(data)\nprint(result)"
     explanation := "这是一个基础的解决方案，适用于初学者。使用了R语言的基本函数来处理数据。"
     difficulty := "basic"
     packages := ["base", "ggplot2"]
     filename := "basic_solution.R" },
   { title := "进阶解决方案"
     code := "# 方案二：进阶实现\nlibrary(dplyr)\nlibrary(ggplot2)\n\ndata %>%\n  filter(!is.na(value)) %>%\n  group_by(category) %>%\n  summarise(mean_val = mean(value)) %>%\n  ggplot(aes(x = category, y = mean_val)) +\n  geom_col()"
     explanation := "这是一个更高级的解决方案，使用了tidyverse生态系统，代码更简洁易读。"
     difficulty := "intermediate"
     packages := ["dplyr", "ggplot2"]
     filename := "advanced_solution.R" },
   { title := "专业解决方案"
     code := "# 方案三：专业实现\nlibrary(data.table)\nlibrary(plotly)\n\nDT <- fread(\"data.csv\")\nresult <- DT[, .(mean_val = mean(value, na.rm = TRUE)), by = category]\np <- plot_ly(result, x = ~category, y = ~mean_val, type = \"bar\")\np"
     explanation := "这是一个专业级的解决方案，使用了高性能的data.table包和交互式可视化。"
     difficulty := "advanced"
     packages := ["data.table", "plotly"]
     filename := "professional_solution.R" }]

/-- `ProblemSolverAgent.process`. -/
def solverProcess (llm : LLM) (userPrompt : String → String)
    (systemPrompt : String) (t : ℚ) (s : WorkflowState) : WorkflowState :=
  let s := { s with processing_steps := s.processing_steps ++ [stepStr t "开始问题求解"] }
  let problem := s.user_input
  if problem = "" then
    { s with errors := s.errors ++ ["没有提供要解决的问题"] }
  else
    let messages := createMessages systemPrompt s ++ [⟨ChatRole.human, userPrompt problem⟩]
    match llm messages with
    | Except.ok content =>
      let solutions := parseSolutions content problem
      { s with
          code_solutions := solutions
          ai_response := some content
          processing_steps := s.processing_steps ++
            [stepStr t ("问题求解完成，生成" ++ toString solutions.length ++ "个解决方案")] }
    | Except.error e =>
      { s with errors := s.errors ++ ["问题求解失败: " ++ e] }

/-- `ConversationAgent.process`. -/
def conversationProcess (llm : LLM) (systemPrompt : String) (t : ℚ)
    (s : WorkflowState) : WorkflowState :=
  let s := { s with processing_steps := s.processing_steps ++ [stepStr t "开始智能对话"] }
  let message := s.user_input
  if message = "" then
    { s with errors := s.errors ++ ["没有提供对话内容"] }
  else
    let messages := conversationAgentMessages systemPrompt s
    match llm messages with
    | Except.ok content =>
      { s with
          ai_response := some (if content = "" then "抱歉，我无法生成回复。" else content)
          conversation_history := s.conversation_history ++
            [⟨"user", message, t⟩, ⟨"assistant", content, t⟩]
          processing_steps := s.processing_steps ++ [stepStr t "智能对话完成"] }
    | Except.error e =>
      { s with errors := s.errors ++ ["智能对话失败: " ++ e] }

/-- `CodeAnalyzerAgent._parse_analysis`: a fixed dict around the raw
response. -/
def parseAnalysis (response : String) : AgentAnalysis :=
  { analysis_result := response
    quality_score := 8.5
    suggestions := ["建议添加错误处理", "可以优化循环性能"]
    complexity := "medium"
    maintainability := "good" }

/-- `CodeAnalyzerAgent.process`: failures go to `warnings`, never to
`errors`. -/
def analyzerProcess (llm : LLM) (userPrompt : String → String)
    (systemPrompt : String) (t : ℚ) (s : WorkflowState) : WorkflowState :=
  let s := { s with processing_steps := s.processing_steps ++ [stepStr t "开始代码分析"] }
  let code :=
    match s.original_code with
    | some c => if c = "" then s.user_input else c
    | none => s.user_input
  if code = "" then
    { s with warnings := s.warnings ++ ["没有提供要分析的代码，跳过代码分析"] }
  else
    let messages := createMessages systemPrompt s ++ [⟨ChatRole.human, userPrompt code⟩]
    match llm messages with
    | Except.ok content =>
      { s with
          code_analysis := some (parseAnalysis content)
          processing_steps := s.processing_steps ++ [stepStr t "代码分析完成"] }
    | Except.error e =>
      { s with warnings := s.warnings ++ ["代码分析失败: " ++ e] }

/-! ### `langgraph_workflow.py`: plain nodes, pipelines, orchestrator -/

/-- `WorkflowEngine._analyze_problem_node`: keyword classification. -/
def analyzeProblemNode (t : ℚ) (s : WorkflowState) : WorkflowState :=
  let s := { s with processing_steps := s.processing_steps ++ [stepStr t "开始问题分析"] }
  let problem := s.user_input
  let lower := problem.toLower
  let ptype :=
    if ["画图", "绘图", "plot", "graph"].any (fun k => strContains lower k) then
      "visualization"
    else if ["统计", "分析", "analysis"].any (fun k => strContains lower k) then
      "statistics"
    else if ["数据处理", "清洗", "clean"].any (fun k => strContains lower k) then
      "data_processing"
    else "general"
  { s with
      problem_type := some ptype
      processing_steps := s.processing_steps ++
        [stepStr t ("问题分析完成，类型: " ++ ptype)] }

/-- `WorkflowEngine._validate_solutions_node`: appends warnings for short or
package-less solutions; never removes or reorders a solution. -/
def validateSolutionsNode (t : ℚ) (s : WorkflowState) : WorkflowState :=
  let s := { s with processing_steps := s.processing_steps ++ [stepStr t "开始解决方案验证"] }
  let newWarnings := (s.code_solutions.enum.map fun p =>
    (if p.2.code.length < 10 then
      ["解决方案" ++ toString (p.1 + 1) ++ "代码过短，可能不完整"] else []) ++
    (if p.2.packages = [] then
      ["解决方案" ++ toString (p.1 + 1) ++ "未指定所需R包"] else [])).flatten
  { s with
      warnings := s.warnings ++ newWarnings
      processing_steps := s.processing_steps ++ [stepStr t "解决方案验证完成"] }

/-- `WorkflowEngine._context_enhancement_node`. -/
def contextEnhancementNode (t : ℚ) (s : WorkflowState) : WorkflowState :=
  let s := { s with processing_steps := s.processing_steps ++ [stepStr t "开始上下文增强"] }
  let aiResponse := s.ai_response.getD ""
  let s :=
    if aiResponse ≠ "" ∧ aiResponse.length < 50 then
      { s with warnings := s.warnings ++ ["AI回复较短，可能需要更多上下文"] }
    else s
  { s with processing_steps := s.processing_steps ++ [stepStr t "上下文增强完成"] }

/-- `WorkflowEngine._finalize_node`: sets `end_time` if absent, computes
`processing_time`, and derives `status`/`summary` from `errors`/`warnings`. -/
def finalizeNode (t : ℚ) (s : WorkflowState) : WorkflowState :=
  let s := { s with processing_steps := s.processing_steps ++ [stepStr t "开始最终化处理"] }
  let s := if s.end_time = none then { s with end_time := some t } else s
  let s := { s with processing_time := some (s.end_time.getD t - s.start_time) }
  let s :=
    if s.errors ≠ [] then
      { s with status := some "error",
               summary := some ("处理失败: " ++ String.intercalate "; " s.errors) }
    else if s.warnings ≠ [] then
      { s with status := some "warning",
               summary := some ("处理完成但有警告: " ++ String.intercalate "; " s.warnings) }
    else
      { s with status := some "success", summary := some "处理成功完成" }
  { s with processing_steps := s.processing_steps ++ [stepStr t "最终化处理完成"] }

/-- The collaborators every pipeline run depends on: the backend and the
prompt resolver outputs (system prompts and user-prompt builders). -/
structure AgentEnv where
  llm : LLM
  explainerSystem : String
  solverSystem : String
  conversationSystem : String
  analyzerSystem : String
  explainerUserPrompt : String → String
  solverUserPrompt : String → String
  analyzerUserPrompt : String → String

/-- The `explain` stage graph: `analyze_code → explain_code → finalize`. -/
def explainPipeline (env : AgentEnv) (t : ℚ) (s : WorkflowState) : WorkflowState :=
  finalizeNode t
    (explainerProcess env.llm env.explainerUserPrompt env.explainerSystem t
      (analyzerProcess env.llm env.analyzerUserPrompt env.analyzerSystem t s))

/-- The `answer` stage graph:
`analyze_problem → solve_problem → validate_solutions → finalize`. -/
def answerPipeline (env : AgentEnv) (t : ℚ) (s : WorkflowState) : WorkflowState :=
  finalizeNode t
    (validateSolutionsNode t
      (solverProcess env.llm env.solverUserPrompt env.solverSystem t
        (analyzeProblemNode t s)))

/-- The `talk` stage graph: `conversation → context_enhancement → finalize`. -/
def talkPipeline (env : AgentEnv) (t : ℚ) (s : WorkflowState) : WorkflowState :=
  finalizeNode t
    (contextEnhancementNode t
      (conversationProcess env.llm env.conversationSystem t s))

/-- The initial state built by `execute_workflow` (lines 92–114). -/
def mkInitialState (freshId : String) (t0 : ℚ)
    (request_type user_input session_id : String)
    (conversation_history : List Message) : WorkflowState :=
  { session_id := session_id
    request_id := freshId
    request_type := request_type
    user_input := user_input
    original_code := if request_type = "explain" then some user_input else none
    problem_description := if request_type = "answer" then some user_input else none
    conversation_history := conversation_history
    ai_response := none
    code_solutions := []
    explanation_result := none
    code_analysis := none
    quality_score := none
    complexity_analysis := none
    processing_steps := []
    start_time := t0
    end_time := none
    total_tokens := 0
    errors := []
    warnings := []
    next_step := none
    workflow_complete := false
    problem_type := none
    status := none
    summary := none
    processing_time := none }

/-- A workflow invocation (`workflow.ainvoke`): an uncaught exception inside
stage execution is an `Except.error`. -/
def Pipelines : Type := String → WorkflowState → Except String WorkflowState

/-- `WorkflowEngine.execute_workflow`.  `tEnd` models the `datetime.now()`
calls after the pipeline returns (success path line 126, except path line
135).  The supported keys are exactly the graphs built by
`_build_workflows`. -/
def executeWorkflow (pipelines : Pipelines) (freshId : String) (t0 tEnd : ℚ)
    (request_type user_input session_id : String)
    (conversation_history : List Message) : Except String WorkflowState :=
  if request_type = "explain" ∨ request_type = "answer" ∨ request_type = "talk" then
    let initial := mkInitialState freshId t0 request_type user_input session_id
      conversation_history
    match pipelines request_type initial with
    | Except.ok finalState =>
      Except.ok { finalState with end_time := some tEnd, workflow_complete := true }
    | Except.error e =>
      Except.ok { initial with
        errors := initial.errors ++ ["工作流执行失败: " ++ e]
        end_time := some tEnd }
  else
    Except.error ("Unsupported workflow type: " ++ request_type)

/-- The engine's pipelines with every stage running to completion
(stage-internal failures are handled inside the agents themselves). -/
def enginePipelines (env : AgentEnv) (t : ℚ) : Pipelines := fun rt s =>
  if rt = "explain" then Except.ok (explainPipeline env t s)
  else if rt = "answer" then Except.ok (answerPipeline env t s)
  else if rt = "talk" then Except.ok (talkPipeline env t s)
  else Except.error "no workflow"

/-! ### `ai_service.py`: `DeepSeekService.chat` message window -/

/-- A plain role/content dict as sent to the DeepSeek API. -/
structure DSMessage where
  role : String
  content : String
deriving Repr, DecidableEq

/-- Message assembly of `DeepSeekService.chat`: system prompt, the last 10
entries of the supplied history in supplied order (`[-10:]`), then the user
message. -/
def deepSeekChatMessages (systemPrompt message : String)
    (conversation_history : List DSMessage) : List DSMessage :=
  (⟨"system", systemPrompt⟩ ::
    conversation_history.drop (conversation_history.length - 10)) ++
  [⟨"user", message⟩]

/-! ### `langgraph_service.py`: availability check and demo/fallback path -/

/-- `LangGraphService._check_api_availability` (`bool` of the configured
key: empty, `sk-请替换…` prefixed, or the literal placeholder key mean
"unavailable"). -/
def checkApiAvailability (apiKey : String) : Bool :=
  !(apiKey == "" || apiKey.startsWith "sk-请替换" ||
    apiKey == "sk-placeholder-key-change-this")

/-- One uploaded-file descriptor as consumed by `_create_demo_response`. -/
structure FileInfo where
  filename : String
  ftype : String
  size : Nat
  content : String
deriving Repr, DecidableEq

/-- The `mode_or_files` argument of `_create_demo_response`: either a mode
string (possibly Python `None`) or a list of uploaded files. -/
inductive ModeOrFiles where
  | mode (m : Option String)
  | files (fs : List FileInfo)
deriving Repr, DecidableEq

/-- One entry of the demo `solutions` payload. -/
structure DemoSolution where
  title : String
  code : String
  explanation : String
  difficulty : String
  packages : List String
  filename : String
deriving Repr, DecidableEq

/-- The dict built by `_create_demo_response`
(`metadata.demo_mode`, `metadata.api_key_required`, `metadata.message` and
`metadata.uploaded_files_count` are flattened into fields). -/
structure DemoResponse where
  content : String
  processing_time : ℚ
  total_tokens : Nat
  success : Bool
  analysis_mode : Option String
  demo_mode : Bool
  api_key_required : Bool
  metadata_message : String
  uploaded_files_count : Nat
  solutions : Option (List DemoSolution)
deriving Repr, DecidableEq


/-- The `chat` demo template. -/
def demoChatContent (user_input : String) : String :=
  "🤖 **R语言智能助手演示模式**\n\n你好！我是R语言智能助手。\n\n**你说：** " ++ user_input ++
  "\n\n---\n\n⚠️ **当前处于演示模式**\n\n要启用完整的AI功能，请按以下步骤配置API密钥：\n\n1. 访问 https://platform.deepseek.com 注册账号\n2. 获取您的API Key\n3. 在项目根目录的 `.env` 文件中设置：\n   ```\n   DEEPSEEK_API_KEY=你的API密钥\n   ```\n4. 重启服务器\n\n**配置完成后，我可以帮助你：**\n- 📝 解释R代码\n- 🔧 解决编程问题\n- 📚 提供学习建议\n- 📊 数据分析指导"

/-- The `explain` demo template (two fragments appear only when mode is "selected"). -/
def demoExplainContent (user_input : String) (mode : Option String) : String :=
  "📝 **代码解释功能演示" ++
  (if mode = some "selected" then " - 选中代码分析" else "") ++
  "**\n\n**你提交的代码：**\n```r\n" ++ user_input ++
  "\n```\n\n---\n\n🎯 **演示解释：**\n\n这是一个演示响应。配置API密钥后，我将为你提供详细的代码分析，包括：\n\n- 📖 逐行代码解释\n- ⚙️ 函数功能说明  \n- ✨ 最佳实践建议\n- 🚀 性能优化方案\n\n" ++
  (if mode = some "selected" then "**当前选中代码分析模式** - 我会重点关注你选中的代码片段并结合完整上下文进行分析。" else "") ++
  "\n\n---\n\n⚠️ **要启用完整功能，请配置DeepSeek API密钥：**\n\n1. 访问 https://platform.deepseek.com\n2. 在 `.env` 文件中设置 `DEEPSEEK_API_KEY`\n3. 重启服务器"

/-- The `solve` demo template. -/
def demoSolveContent (user_input fileInfo : String) (uploadedTruthy : Bool) : String :=
  "🔧 **问题解决功能演示**\n\n**你的问题：** " ++ user_input ++ fileInfo ++
  "\n\n---\n\n🎯 **演示解决方案：**\n\n这是一个演示响应。配置API密钥后，我将提供：\n\n- 🔄 多种解决方案\n- 💻 详细代码实现\n- 📋 最佳实践指导\n- 📦 相关包推荐\n" ++
  (if uploadedTruthy then "- 📎 基于上传文件的个性化解决方案" else "") ++
  "\n\n---\n\n⚠️ **配置API密钥以获得完整功能**"

/-- The `analyze` demo template. -/
def demoAnalyzeContent (user_input : String) : String :=
  "📊 **代码分析功能演示**\n\n**你提交的代码：**\n```r\n" ++ user_input ++
  "\n```\n\n---\n\n🎯 **演示分析：**\n\n配置API密钥后，我将提供：\n\n- 📈 代码质量评分\n- ⚡ 性能分析建议\n- 📏 代码规范检查\n- 🔧 优化建议\n\n---\n\n⚠️ **配置API密钥以获得完整功能**"


-- demo solution 1
def demoSolveSolution1 : DemoSolution :=
  ⟨"数据可视化方案",
   "# 解决方案 1: 使用ggplot2创建散点图\nlibrary(ggplot2)\ndata(mtcars)\n\n# 创建散点图显示重量与油耗的关系\np1 <- ggplot(mtcars, aes(x = wt, y = mpg)) +\n  geom_point(color = \"blue\", size = 3) +\n  geom_smooth(method = \"lm\", se = TRUE, color = \"red\") +\n  labs(title = \"车重与油耗关系图\",\n       x = \"车重 (1000 lbs)\",\n       y = \"每加仑英里数 (mpg)\") +\n  theme_minimal()\n\nprint(p1)\n\n# 显示相关性\ncorrelation <- cor(mtcars$wt, mtcars$mpg)\ncat(\"相关系数:\", round(correlation, 3))",
   "## 📊 详细解释\n\n### 🎯 **解决方案概述**\n这个解决方案演示了如何使用R语言的ggplot2包来分析mtcars数据集，创建专业的散点图展示车重与油耗的关系。\n\n### 📝 **代码详解**\n\n#### 1. **加载必要包**\n```r\nlibrary(ggplot2)\n```\n- 加载ggplot2图形包，这是R中最强大的数据可视化工具之一\n- 提供了丰富的图层语法，可以创建高质量的统计图形\n\n#### 2. **数据准备**\n```r\ndata(mtcars)\n```\n- 加载内置的mtcars数据集\n- 包含32种车型的11个变量，包括油耗(mpg)和重量(wt)\n\n#### 3. **创建散点图**\n```r\np1 <- ggplot(mtcars, aes(x = wt, y = mpg))\n```\n- 初始化ggplot对象\n- `aes()` 定义美学映射：x轴为车重，y轴为油耗\n\n#### 4. **添加图层**\n- `geom_point()`: 添加散点，蓝色，大小为3\n- `geom_smooth()`: 添加回归线和置信区间\n- `labs()`: 设置标题和轴标签\n- `theme_minimal()`: 应用简洁主题\n\n#### 5. **统计分析**\n```r\ncorrelation <- cor(mtcars$wt, mtcars$mpg)\n```\n- 计算皮尔逊相关系数\n- 量化车重与油耗之间的线性关系强度\n\n### 🔍 **期望结果**\n- **散点图**: 显示明显的负相关趋势\n- **回归线**: 红色线条显示整体趋势\n- **相关系数**: 约 -0.868，表示强负相关\n\n### 💡 **关键洞察**\n1. **负相关关系**: 车重越大，油耗效率越低\n2. **线性关系**: 数据点较好地符合线性模型\n3. **统计显著性**: 关系在统计上显著\n\n### 📈 **扩展建议**\n- 可以添加车型标签: `geom_text(aes(label = rownames(mtcars)))`\n- 按缸数分组着色: `aes(color = factor(cyl))`\n- 添加置信区间: `geom_smooth(method = \"lm\", se = TRUE)`\n\n---\n*💡 这是演示模式的详细解释。配置API密钥后，将提供基于实际数据的个性化分析。*",
   "初级", ["ggplot2"], "mtcars_analysis.R"⟩
-- demo solution 2
def demoSolveSolution2 : DemoSolution :=
  ⟨"统计分析方案",
   "# 解决方案 2: 综合统计分析\n# 加载必要的包\nlibrary(dplyr)\nlibrary(corrplot)\n\n# 基本描述性统计\nsummary_stats <- mtcars %>%\n  select(mpg, wt, hp, cyl) %>%\n  summary()\n\nprint(\"描述性统计:\")\nprint(summary_stats)\n\n# 相关性矩阵\ncor_matrix <- cor(mtcars[, c(\"mpg\", \"wt\", \"hp\", \"cyl\")])\nprint(\"相关性矩阵:\")\nprint(round(cor_matrix, 3))\n\n# 可视化相关性矩阵\ncorrplot(cor_matrix, method = \"circle\", \n         type = \"upper\", order = \"hclust\",\n         tl.cex = 0.8, tl.col = \"black\")\n\n# 线性回归分析\nmodel <- lm(mpg ~ wt + hp + cyl, data = mtcars)\nprint(\"回归分析结果:\")\nprint(summary(model))\n\n# 回归诊断图\npar(mfrow = c(2, 2))\nplot(model)",
   "## 🔬 综合统计分析详解\n\n### 🎯 **分析目标**\n对mtcars数据集进行全面的统计分析，探索多个变量与油耗的关系，建立预测模型。\n\n### 📊 **分析步骤**\n\n#### 1. **描述性统计**\n```r\nsummary_stats <- mtcars %>%\n  select(mpg, wt, hp, cyl) %>%\n  summary()\n```\n**作用**: \n- 了解数据的基本分布特征\n- 检查数据范围和异常值\n- 为后续分析做准备\n\n**解读要点**:\n- `mpg`: 油耗范围 10.4-33.9\n- `wt`: 车重范围 1.513-5.424\n- `hp`: 马力范围 52-335\n- `cyl`: 气缸数 4、6、8\n\n#### 2. **相关性分析**\n```r\ncor_matrix <- cor(mtcars[, c(\"mpg\", \"wt\", \"hp\", \"cyl\")])\n```\n**分析目的**:\n- 识别变量间的线性关系\n- 发现多重共线性问题\n- 指导模型变量选择\n\n**预期结果**:\n- `mpg-wt`: 强负相关 (~-0.87)\n- `mpg-hp`: 强负相关 (~-0.78)\n- `mpg-cyl`: 强负相关 (~-0.85)\n\n#### 3. **相关性可视化**\n```r\ncorrplot(cor_matrix, method = \"circle\")\n```\n**视觉特征**:\n- 🔴 红色圆圈: 负相关\n- 🔵 蓝色圆圈: 正相关\n- 圆圈大小: 相关性强度\n\n#### 4. **多元线性回归**\n```r\nmodel <- lm(mpg ~ wt + hp + cyl, data = mtcars)\n```\n**模型公式**: `mpg = β₀ + β₁×wt + β₂×hp + β₃×cyl + ε`\n\n**系数解释**:\n- `wt系数`: 车重增加1单位，油耗下降约3.2 mpg\n- `hp系数`: 马力增加1单位，油耗下降约0.03 mpg\n- `cyl系数`: 气缸数影响基础油耗水平\n\n#### 5. **模型诊断**\n```r\npar(mfrow = c(2, 2))\nplot(model)\n```\n**诊断图解读**:\n1. **残差vs拟合值**: 检查线性假设\n2. **QQ图**: 检查正态性假设\n3. **尺度-位置图**: 检查等方差性\n4. **残差vs杠杆**: 识别异常值\n\n### 📈 **模型评估指标**\n- **R²**: 解释变异程度 (~0.83)\n- **调整R²**: 考虑变量数量的修正R²\n- **F统计量**: 模型整体显著性\n- **p值**: 各系数的显著性\n\n### 🔍 **实际应用**\n1. **预测新车油耗**: 基于车重、马力、气缸数\n2. **设计优化**: 识别影响油耗的关键因素\n3. **购车建议**: 基于油耗需求推荐车型\n\n### ⚠️ **注意事项**\n- 模型基于1974年数据，现代车辆可能不适用\n- 需要检查模型假设是否满足\n- 考虑非线性关系和交互效应\n\n---\n*🔬 这展示了完整的统计分析流程。在实际项目中，会根据具体需求调整分析方法。*",
   "中级", ["dplyr", "corrplot"], "comprehensive_analysis.R"⟩
-- demo solution 3
def demoSolveSolution3 : DemoSolution :=
  ⟨"高级可视化方案",
   "# 解决方案 3: 高级数据可视化\nlibrary(ggplot2)\nlibrary(gridExtra)\nlibrary(RColorBrewer)\nlibrary(plotly)\n\n# 1. 分面散点图\np1 <- ggplot(mtcars, aes(x = wt, y = mpg)) +\n  geom_point(aes(color = factor(cyl), size = hp), alpha = 0.7) +\n  geom_smooth(method = \"lm\", se = TRUE, color = \"darkred\") +\n  facet_wrap(~cyl, labeller = label_both) +\n  scale_color_brewer(type = \"qual\", palette = \"Set1\") +\n  labs(title = \"车重与油耗关系 (按气缸数分组)\",\n       x = \"车重 (1000 lbs)\", y = \"油耗 (mpg)\",\n       color = \"气缸数\", size = \"马力\") +\n  theme_bw() +\n  theme(legend.position = \"bottom\")\n\n# 2. 箱线图比较\np2 <- ggplot(mtcars, aes(x = factor(cyl), y = mpg, fill = factor(cyl))) +\n  geom_boxplot(alpha = 0.7) +\n  geom_jitter(width = 0.2, alpha = 0.5) +\n  scale_fill_brewer(type = \"qual\", palette = \"Pastel1\") +\n  labs(title = \"不同气缸数的油耗分布\",\n       x = \"气缸数\", y = \"油耗 (mpg)\") +\n  theme_minimal() +\n  theme(legend.position = \"none\")\n\n# 3. 气泡图\np3 <- ggplot(mtcars, aes(x = wt, y = mpg)) +\n  geom_point(aes(size = hp, color = factor(cyl)), alpha = 0.6) +\n  scale_size_continuous(range = c(3, 15)) +\n  scale_color_manual(values = c(\"4\" = \"#E31A1C\", \"6\" = \"#1F78B4\", \"8\" = \"#33A02C\")) +\n  labs(title = \"多维度关系图\",\n       subtitle = \"尺寸=马力, 颜色=气缸数\",\n       x = \"车重 (1000 lbs)\", y = \"油耗 (mpg)\",\n       size = \"马力\", color = \"气缸数\") +\n  theme_classic()\n\n# 4. 组合图表\ncombined_plot <- grid.arrange(p1, p2, p3, ncol = 2, nrow = 2)\n\n# 5. 交互式图表 (可选)\ninteractive_plot <- plot_ly(mtcars, x = ~wt, y = ~mpg, size = ~hp, \n                           color = ~factor(cyl), text = ~rownames(mtcars),\n                           hovertemplate = \"<b>%\x7btext\x7d</b><br>\" +\n                                         \"车重: %\x7bx\x7d<br>\" +\n                                         \"油耗: %\x7by\x7d<br>\" +\n                                         \"<extra></extra>\") %>%\n  add_markers() %>%\n  layout(title = \"交互式车辆性能图\",\n         xaxis = list(title = \"车重 (1000 lbs)\"),\n         yaxis = list(title = \"油耗 (mpg)\"))\n\nprint(\"静态图表已生成\")\nprint(\"运行 interactive_plot 查看交互式图表\")",
   "## 🎨 高级数据可视化详解\n\n### 🎯 **可视化策略**\n采用多层次、多维度的可视化方法，全方位展示数据关系，提供直观且信息丰富的分析视角。\n\n### 📊 **图表类型详解**\n\n#### 1. **分面散点图 (Faceted Scatter Plot)**\n```r\nfacet_wrap(~cyl, labeller = label_both)\n```\n**设计优势**:\n- 🔍 **分组对比**: 按气缸数分别展示关系\n- 🎨 **多维映射**: 颜色=气缸数，大小=马力\n- 📈 **趋势分析**: 每组都有独立的回归线\n\n**视觉元素**:\n- **点的颜色**: 区分不同气缸数车型\n- **点的大小**: 反映马力大小\n- **回归线**: 显示每组内部的线性趋势\n- **置信区间**: 评估预测的不确定性\n\n#### 2. **箱线图对比 (Box Plot Comparison)**\n```r\ngeom_boxplot() + geom_jitter()\n```\n**统计信息展示**:\n- 📊 **中位数**: 箱子中间的线\n- 📐 **四分位数**: 箱子的上下边界\n- 🎯 **异常值**: 超出须线的点\n- 🔄 **数据分布**: 抖动点显示原始数据\n\n**对比维度**:\n- 4缸车: 油耗最高，分布较窄\n- 6缸车: 油耗中等，变异适中\n- 8缸车: 油耗最低，分布较宽\n\n#### 3. **气泡图 (Bubble Chart)**\n```r\naes(size = hp, color = factor(cyl))\n```\n**多维度信息**:\n- **X轴**: 车重 (连续变量)\n- **Y轴**: 油耗 (连续变量)\n- **气泡大小**: 马力 (连续变量)\n- **气泡颜色**: 气缸数 (分类变量)\n\n**视觉洞察**:\n- 大气泡(高马力) → 通常油耗低、车重大\n- 不同颜色集群 → 气缸数的分组效应明显\n- 气泡分布 → 揭示多变量间的复杂关系\n\n#### 4. **组合布局 (Grid Layout)**\n```r\ngrid.arrange(p1, p2, p3, ncol = 2, nrow = 2)\n```\n**布局优势**:\n- 🔄 **对比分析**: 同时查看多个视角\n- 📄 **报告友好**: 适合打印和展示\n- 💾 **空间效率**: 最大化信息密度\n\n#### 5. **交互式可视化 (Interactive Plot)**\n```r\nplot_ly() + add_markers()\n```\n**交互功能**:\n- 🖱️ **悬停信息**: 显示详细数据\n- 🔍 **缩放平移**: 探索数据细节\n- 🎛️ **图例交互**: 切换显示/隐藏\n- 📱 **响应式**: 适配不同设备\n\n### 🎨 **设计原则**\n\n#### **颜色策略**\n- `RColorBrewer`: 使用专业配色方案\n- `Set1`: 定性数据的高对比度色彩\n- `Pastel1`: 柔和色调，适合背景元素\n\n#### **主题选择**\n- `theme_bw()`: 黑白边框，专业商务风格\n- `theme_minimal()`: 简洁现代，突出数据\n- `theme_classic()`: 经典学术风格\n\n#### **信息层次**\n1. **主标题**: 明确图表目的\n2. **副标题**: 补充关键信息\n3. **轴标签**: 包含单位说明\n4. **图例**: 清晰的变量说明\n\n### 📈 **应用场景**\n\n#### **学术研究**\n- 📝 论文插图\n- 📊 数据探索\n- 📋 结果汇报\n\n#### **商业分析**\n- 📈 业务仪表板\n- 💼 决策支持\n- 📊 客户报告\n\n#### **教学演示**\n- 🎓 课程教学\n- 🔍 概念解释\n- 💡 案例分析\n\n### 🚀 **扩展功能**\n- **动画效果**: `gganimate`包创建动态图表\n- **3D可视化**: `plotly`的3D散点图\n- **地理信息**: 如果有位置数据，可用地图可视化\n- **网络图**: 展示变量间的复杂关系网络\n\n### 💡 **最佳实践**\n1. **渐进披露**: 从简单到复杂\n2. **一致性**: 保持颜色和样式统一\n3. **可访问性**: 考虑色盲友好的配色\n4. **响应式**: 适配不同输出媒介\n\n---\n*🎨 这展示了R语言强大的可视化能力。每种图表都有其特定的使用场景和优势。*",
   "高级", ["ggplot2", "gridExtra", "RColorBrewer", "plotly"], "advanced_visualization.R"⟩

/-- The per-file lines of the `file_info` fragment. -/
def fileInfoLines (fs : List FileInfo) : String :=
  String.join (fs.map fun f =>
    "- " ++ f.filename ++ " (" ++ f.ftype ++ ", " ++ toString f.size ++ " 字节)\n")

/-- The `file_info` fragment built for an uploaded-file list. -/
def fileInfoStr (fs : List FileInfo) : String :=
  "\n\n📎 **包含" ++ toString fs.length ++ "个上传文件：**\n" ++ fileInfoLines fs

/-- The fixed demo `solutions` payload (exactly three entries). -/
def demoSolveSolutions : List DemoSolution :=
  [demoSolveSolution1, demoSolveSolution2, demoSolveSolution3]

/-- `LangGraphService._create_demo_response`: a pure function of
`(request_type, user_input, mode_or_files)` — no randomness, no clock in
the content. -/
def createDemoResponse (request_type user_input : String)
    (modeOrFiles : ModeOrFiles) : DemoResponse :=
  let mode : Option String :=
    match modeOrFiles with
    | ModeOrFiles.files _ => some "full"
    | ModeOrFiles.mode m => m
  let uploadedFiles : Option (List FileInfo) :=
    match modeOrFiles with
    | ModeOrFiles.files fs => some fs
    | ModeOrFiles.mode _ => none
  let fileInfo : String :=
    match modeOrFiles with
    | ModeOrFiles.files fs => fileInfoStr fs
    | ModeOrFiles.mode _ => ""
  let uploadedTruthy : Bool :=
    match uploadedFiles with
    | some fs => !fs.isEmpty
    | none => false
  let content :=
    if request_type = "chat" then demoChatContent user_input
    else if request_type = "explain" then demoExplainContent user_input mode
    else if request_type = "solve" then demoSolveContent user_input fileInfo uploadedTruthy
    else if request_type = "analyze" then demoAnalyzeContent user_input
    else "演示响应：" ++ user_input
  { content := content
    processing_time := 0.1
    total_tokens := 0
    success := true
    analysis_mode := mode
    demo_mode := true
    api_key_required := true
    metadata_message := "请配置DEEPSEEK_API_KEY以启用完整功能"
    uploaded_files_count :=
      match uploadedFiles with
      | some fs => fs.length
      | none => 0
    solutions :=
      if request_type = "solve" then some demoSolveSolutions else none }

/-- Demo gate of `LangGraphService.explain_code`: with an unavailable key
the demo response is returned before any workflow runs; `live` stands for
the result of the live path. -/
def explainCodeService (apiKey code mode : String) (live : DemoResponse) :
    DemoResponse :=
  if checkApiAvailability apiKey = false then
    createDemoResponse "explain" code (ModeOrFiles.mode (some mode))
  else live

/-- Demo gate of `LangGraphService.chat`. -/
def chatService (apiKey message : String) (live : DemoResponse) : DemoResponse :=
  if checkApiAvailability apiKey = false then
    createDemoResponse "chat" message (ModeOrFiles.mode (some "full"))
  else live

/-- Demo gate of `LangGraphService.solve_problem`. -/
def solveProblemService (apiKey problem : String)
    (uploadedFiles : Option (List FileInfo)) (live : DemoResponse) : DemoResponse :=
  if checkApiAvailability apiKey = false then
    createDemoResponse "solve" problem
      (match uploadedFiles with
       | some fs => ModeOrFiles.files fs
       | none => ModeOrFiles.mode none)
  else live


/-! ### Spec-side reference definitions (for refinement comparison only)

These two definitions transcribe the *specification's words* for the
complexity computation (claim C8), to be compared against the
source-derived `calculateComplexity` above. -/

/-- Matcher for a whole-word occurrence of `kw` (word boundaries on both
sides): the specification's notion of "occurrences of the control-flow
keyword". -/
def matchWholeWord (kw : String) (prev : Char) (l : List Char) :
    Option (Unit × Char × List Char) :=
  if isWordChar prev then none
  else
    match matchLit kw.data l with
    | none => none
    | some rest =>
      if isWordChar (rest.headD ' ') then none
      else some ((), kw.data.getLastD ' ', rest)

/-- Whole-word occurrences of a keyword in the code (spec reading). -/
def countKeywordWord (kw : String) (s : String) : Nat :=
  countMatches (matchWholeWord kw) s

/-- The specification's complexity formula: `1 +` occurrences of the
keywords `if`, `for`, `while`, `repeat` (as words) plus the logical
AND/OR operators. -/
def specCyclomaticComplexity (code : String) : Nat :=
  1 + countKeywordWord "if" code + countKeywordWord "for" code
    + countKeywordWord "while" code + countKeywordWord "repeat" code
    + countAndAnd code + countOrOr code

/-- The specification's level thresholds: low (< 10), medium (10–20),
high (> 20). -/
def specComplexityLevel (c : Nat) : String :=
  if c < 10 then "low"
  else if c ≤ 20 then "medium"
  else "high"

/-! ### Concrete fixtures used by counterexamples and witnesses -/

/-- A pipeline map that always raises (a stage exception the stage did not
catch). -/
def failingPipelines (e : String) : Pipelines := fun _ _ => Except.error e

/-- A backend call that always fails with message `e`. -/
def failingLLM (e : String) : LLM := fun _ => Except.error e

/-- A backend call that always succeeds with reply `r`. -/
def okLLM (r : String) : LLM := fun _ => Except.ok r

/-- A concrete collaborator environment with a succeeding backend. -/
def okEnv (r : String) : AgentEnv :=
  { llm := okLLM r
    explainerSystem := "sysE"
    solverSystem := "sysS"
    conversationSystem := "sysC"
    analyzerSystem := "sysA"
    explainerUserPrompt := fun c => "explain:" ++ c
    solverUserPrompt := fun c => "solve:" ++ c
    analyzerUserPrompt := fun c => "analyze:" ++ c }

/-- The same environment with a failing backend. -/
def failEnv (e : String) : AgentEnv :=
  { okEnv "" with llm := failingLLM e }

/-- A fresh workflow state with non-empty user input, as built by the
orchestrator for an `explain` run. -/
def exampleState : WorkflowState :=
  mkInitialState "rid-1" 0 "explain" "x <- 1" "s1" []

/-- One conversation turn of the 15-turn example history. -/
def exampleTurn (i : Nat) : Message :=
  { role := if i % 2 = 1 then "user" else "assistant"
    content := "turn " ++ toString i
    timestamp := (i : ℚ) }

/-- A 15-turn history in ascending chronological order. -/
def history15 : List Message :=
  (List.range 15).map fun i => exampleTurn (i + 1)

/-- A `talk` state carrying the 15-turn history. -/
def exampleTalkState : WorkflowState :=
  mkInitialState "rid-2" 0 "talk" "最近怎么样" "s2" history15

/-- Nine `&&` operators: complexity exactly `10`. -/
def tenComplexityCode : String :=
  "x && x && x && x && x && x && x && x && x && x"

/-! ## Helper lemmas -/

/-- Converting a history whose roles are all user/assistant drops nothing. -/
theorem filterMap_msgToChat_eq_map (l : List Message)
    (h : ∀ x ∈ l, x.role = "user" ∨ x.role = "assistant") :
    l.filterMap msgToChat = l.map msgToChatTotal := by
  induction l with
  | nil => rfl
  | cons a l ih =>
    have ha := h a (List.mem_cons_self a l)
    have hl := fun x hx => h x (List.mem_cons_of_mem a hx)
    rcases ha with ha | ha <;>
      simp [msgToChat, msgToChatTotal, ha, ih hl]

/-- A three-part concatenation with a non-empty first part is non-empty. -/
theorem append3_length_ne_empty (a b c : String) (ha : 0 < a.length) :
    a ++ b ++ c ≠ "" := by
  intro h
  have hl := congrArg String.length h
  rw [String.length_append, String.length_append] at hl
  have h0 : ("" : String).length = 0 := rfl
  rw [h0] at hl
  omega

/-! ## Claim C1 -/

/-- C1: the Finalize stage sets `end_time` when it is absent, sets
`processing_time` to `end_time - start_time` (seconds), leaves
`errors`/`warnings` untouched, and computes `status` so that it is
`error` iff `errors` is non-empty, `warning` iff `errors` is empty and
`warnings` is non-empty, and `success` iff both lists are empty. -/
theorem C1_finalize_status_rule (t : ℚ) (s : WorkflowState) :
    (finalizeNode t s).errors = s.errors
    ∧ (finalizeNode t s).warnings = s.warnings
    ∧ (finalizeNode t s).end_time = some (s.end_time.getD t)
    ∧ (finalizeNode t s).processing_time = some (s.end_time.getD t - s.start_time)
    ∧ ((finalizeNode t s).status = some "error" ↔ s.errors ≠ [])
    ∧ ((finalizeNode t s).status = some "warning" ↔ (s.errors = [] ∧ s.warnings ≠ []))
    ∧ ((finalizeNode t s).status = some "success" ↔ (s.errors = [] ∧ s.warnings = [])) := by
  unfold finalizeNode
  rcases h : s.end_time with _ | et <;>
    by_cases h1 : s.errors = [] <;>
    by_cases h2 : s.warnings = [] <;>
    simp [h, h1, h2]

/-- C1 witness: on a fresh state finalized at time 1 the status is
`success` and the processing time is computed from the stored times. -/
theorem C1_finalize_status_rule_witness :
    (finalizeNode 1 exampleState).status = some "success"
    ∧ (finalizeNode 1 exampleState).processing_time
        = some (exampleState.end_time.getD 1 - exampleState.start_time) := by
  have h := C1_finalize_status_rule 1 exampleState
  exact ⟨(h.2.2.2.2.2.2).mpr ⟨rfl, rfl⟩, h.2.2.2.1⟩

/-! ## Claim C2 -/

/-- C2 counterexample: when a stage raises an exception the orchestrator is
caught by, the returned partial record has `status` and `processing_time`
both *unset* (the claim asserts they are set/computed on this path). -/
theorem C2_failure_path_counterexample :
    (executeWorkflow (failingPipelines "模拟异常") "rid-1" 0 1 "explain" "x <- 1" "s1" []).map
        (fun r => (r.status, r.processing_time, r.errors))
      = Except.ok (none, none, ["工作流执行失败: 模拟异常"]) := by
  rfl

/-- C2 amended: for a supported request type `execute_workflow` never
raises; when the pipeline raises internally, the orchestrator returns the
initial record with the failure appended to `errors` and `end_time` set —
but `status` and `processing_time` stay unset on that path (they are only
written by the Finalize stage). -/
theorem C2_orchestrator_failure_policy (pipes : Pipelines) (fid : String)
    (t0 t1 : ℚ) (rt ui sid : String) (hist : List Message)
    (hrt : rt = "explain" ∨ rt = "answer" ∨ rt = "talk") :
    (executeWorkflow pipes fid t0 t1 rt ui sid hist).isOk = true
    ∧ ∀ e, pipes rt (mkInitialState fid t0 rt ui sid hist) = Except.error e →
        executeWorkflow pipes fid t0 t1 rt ui sid hist
          = Except.ok { mkInitialState fid t0 rt ui sid hist with
              errors := ["工作流执行失败: " ++ e], end_time := some t1 } := by
  constructor
  · simp only [executeWorkflow]
    rw [if_pos hrt]
    cases h : pipes rt (mkInitialState fid t0 rt ui sid hist) <;> rfl
  · intro e he
    simp only [executeWorkflow]
    rw [if_pos hrt, he]
    rfl

/-- C2 witness: a concrete raising pipeline is absorbed and the partial
record is returned. -/
theorem C2_orchestrator_failure_policy_witness :
    (executeWorkflow (failingPipelines "boom") "rid-1" 0 1 "explain" "x <- 1" "s1" []).isOk = true
    ∧ executeWorkflow (failingPipelines "boom") "rid-1" 0 1 "explain" "x <- 1" "s1" []
        = Except.ok { mkInitialState "rid-1" 0 "explain" "x <- 1" "s1" [] with
            errors := ["工作流执行失败: " ++ "boom"], end_time := some 1 } := by
  have h := C2_orchestrator_failure_policy (failingPipelines "boom") "rid-1" 0 1
    "explain" "x <- 1" "s1" [] (Or.inl rfl)
  exact ⟨h.1, h.2 "boom" rfl⟩

/-! ## Claim C3 -/

/-- C3 counterexample: empty input is *not* rejected by the orchestrator —
an `explain` run on `""` returns normally (no exception surfaces). -/
theorem C3_empty_input_counterexample :
    (executeWorkflow (enginePipelines (okEnv "回复") 0) "rid-1" 0 1 "explain" "" "s1" []).isOk
      = true := by
  rfl

/-- C3 amended: `execute_workflow` raises exactly for an unsupported
request type (before any state is built); for the three supported types it
always returns normally, and empty input is handled inside the stage by
appending an error string, with no exception. -/
theorem C3_validation_policy (pipes : Pipelines) (fid : String) (t0 t1 : ℚ)
    (rt ui sid : String) (hist : List Message) :
    (¬(rt = "explain" ∨ rt = "answer" ∨ rt = "talk") →
      executeWorkflow pipes fid t0 t1 rt ui sid hist
        = Except.error ("Unsupported workflow type: " ++ rt))
    ∧ ((rt = "explain" ∨ rt = "answer" ∨ rt = "talk") →
      (executeWorkflow pipes fid t0 t1 rt ui sid hist).isOk = true)
    ∧ (∀ (llm : LLM) (up : String → String) (sp : String) (t : ℚ) (s : WorkflowState),
        s.user_input = "" →
        (explainerProcess llm up sp t s).errors = s.errors ++ ["没有提供要解释的代码"]) := by
  refine ⟨fun h => ?_, fun h => ?_, fun llm up sp t s h => ?_⟩
  · simp only [executeWorkflow]
    rw [if_neg h]
  · simp only [executeWorkflow]
    rw [if_pos h]
    cases hp : pipes rt (mkInitialState fid t0 rt ui sid hist) <;> rfl
  · unfold explainerProcess
    simp [h]

/-- C3 witness: an unsupported type raises, a supported one returns, and an
empty `explain` input becomes a stage error. -/
theorem C3_validation_policy_witness :
    executeWorkflow (failingPipelines "x") "rid" 0 1 "demo" "q" "s" []
        = Except.error ("Unsupported workflow type: " ++ "demo")
    ∧ (executeWorkflow (enginePipelines (okEnv "回复") 0) "rid" 0 1 "talk" "你好" "s" []).isOk
        = true
    ∧ (explainerProcess (okLLM "回复") (fun c => c) "sys" 0
          (mkInitialState "rid" 0 "explain" "" "s" [])).errors
        = (mkInitialState "rid" 0 "explain" "" "s" []).errors ++ ["没有提供要解释的代码"] := by
  refine ⟨(C3_validation_policy (failingPipelines "x") "rid" 0 1 "demo" "q" "s" []).1
      (by decide),
    (C3_validation_policy (enginePipelines (okEnv "回复") 0) "rid" 0 1 "talk" "你好" "s" []).2.1
      (Or.inr (Or.inr rfl)),
    (C3_validation_policy (failingPipelines "x") "rid" 0 1 "demo" "q" "s" []).2.2
      (okLLM "回复") (fun c => c) "sys" 0 (mkInitialState "rid" 0 "explain" "" "s" []) rfl⟩

/-! ## Claim C4 -/

/-- C4 counterexample: on a backend failure the Explainer does *not* return
the state "otherwise unmodified" — the processing-step entry appended at
stage start is also part of the returned state. -/
theorem C4_steps_modified_counterexample :
    (explainerProcess (failingLLM "请求超时") (fun c => c) "sysE" 0 exampleState).processing_steps
      ≠ exampleState.processing_steps := by
  decide

/-- C4 amended: on any backend failure each agent absorbs the exception and
appends one descriptive string — to `errors` for Explainer, Solver and
Conversationalist, to `warnings` (never `errors`) for the Analyzer — and
otherwise changes nothing except the processing-step log entry appended at
stage start; an Analyzer failure alone never yields terminal status
`error`. -/
theorem C4_agent_failure_policy (e : String) (upE upS upA : String → String)
    (spE spS spC spA : String) (t : ℚ) (s : WorkflowState)
    (h : s.user_input ≠ "") :
    (explainerProcess (failingLLM e) upE spE t s).errors = s.errors ++ ["代码解释失败: " ++ e]
    ∧ (explainerProcess (failingLLM e) upE spE t s).warnings = s.warnings
    ∧ (explainerProcess (failingLLM e) upE spE t s).ai_response = s.ai_response
    ∧ (explainerProcess (failingLLM e) upE spE t s).explanation_result = s.explanation_result
    ∧ (explainerProcess (failingLLM e) upE spE t s).code_solutions = s.code_solutions
    ∧ (explainerProcess (failingLLM e) upE spE t s).code_analysis = s.code_analysis
    ∧ (explainerProcess (failingLLM e) upE spE t s).conversation_history = s.conversation_history
    ∧ (explainerProcess (failingLLM e) upE spE t s).processing_steps
        = s.processing_steps ++ [stepStr t "开始代码解释"]
    ∧ (solverProcess (failingLLM e) upS spS t s).errors = s.errors ++ ["问题求解失败: " ++ e]
    ∧ (solverProcess (failingLLM e) upS spS t s).warnings = s.warnings
    ∧ (solverProcess (failingLLM e) upS spS t s).code_solutions = s.code_solutions
    ∧ (solverProcess (failingLLM e) upS spS t s).ai_response = s.ai_response
    ∧ (conversationProcess (failingLLM e) spC t s).errors = s.errors ++ ["智能对话失败: " ++ e]
    ∧ (conversationProcess (failingLLM e) spC t s).warnings = s.warnings
    ∧ (conversationProcess (failingLLM e) spC t s).ai_response = s.ai_response
    ∧ (conversationProcess (failingLLM e) spC t s).conversation_history
        = s.conversation_history
    ∧ (analyzerProcess (failingLLM e) upA spA t s).warnings
        = s.warnings ++ ["代码分析失败: " ++ e]
    ∧ (analyzerProcess (failingLLM e) upA spA t s).errors = s.errors
    ∧ (analyzerProcess (failingLLM e) upA spA t s).code_analysis = s.code_analysis
    ∧ (s.errors = [] → ∀ t2 : ℚ,
        (finalizeNode t2 (analyzerProcess (failingLLM e) upA spA t s)).status
          ≠ some "error") := by
  have hanalyzer :
      (analyzerProcess (failingLLM e) upA spA t s).warnings
          = s.warnings ++ ["代码分析失败: " ++ e]
        ∧ (analyzerProcess (failingLLM e) upA spA t s).errors = s.errors
        ∧ (analyzerProcess (failingLLM e) upA spA t s).code_analysis = s.code_analysis := by
    unfold analyzerProcess
    rcases ho : s.original_code with _ | c
    · simp [ho, h, failingLLM]
    · by_cases hc : c = "" <;> simp [ho, h, hc, failingLLM]
  refine ⟨?_, ?_, ?_, ?_, ?_, ?_, ?_, ?_, ?_, ?_, ?_, ?_, ?_, ?_, ?_, ?_,
    hanalyzer.1, hanalyzer.2.1, hanalyzer.2.2, ?_⟩
  all_goals first
    | (intro herr t2
       unfold finalizeNode
       rcases he2 : (analyzerProcess (failingLLM e) upA spA t s).end_time with _ | et <;>
         simp [he2, hanalyzer.1, hanalyzer.2.1, herr])
    | (unfold explainerProcess; simp [h, failingLLM])
    | (unfold solverProcess; simp [h, failingLLM])
    | (unfold conversationProcess; simp [h, failingLLM])

/-- C4 witness: the Explainer turns a concrete backend timeout into one
appended error string. -/
theorem C4_agent_failure_policy_witness :
    (explainerProcess (failingLLM "请求超时") (fun c => c) "sysE" 0 exampleState).errors
      = exampleState.errors ++ ["代码解释失败: " ++ "请求超时"] :=
  (C4_agent_failure_policy "请求超时" (fun c => c) (fun c => c) (fun c => c)
    "sysE" "sysS" "sysC" "sysA" 0 exampleState (by decide)).1

/-! ## Claim C5 -/

/-- C5 counterexample: on the 15-turn ascending history the conversation
agent's message list is *not* the system prompt followed by the 10 most
recent turns — no windowing happens in `create_messages`. -/
theorem C5_window_counterexample :
    conversationAgentMessages "sysC" exampleTalkState
      ≠ ChatMessage.mk ChatRole.system "sysC" ::
          ((history15.drop 5).filterMap msgToChat ++
            [⟨ChatRole.human, exampleTalkState.user_input⟩]) := by
  decide

/-- C5 amended: the Conversationalist's message list contains *all* history
turns (roles user/assistant) in the order supplied, between the system
instruction and the current user message — 17 messages for a 15-turn
history; the 10-most-recent window exists only in the legacy
`DeepSeekService.chat` path, which keeps the last 10 entries of the
supplied list in supplied order (it never re-sorts a descending input). -/
theorem C5_history_window (sysPrompt m : String) (s : WorkflowState)
    (hroles : ∀ x ∈ s.conversation_history, x.role = "user" ∨ x.role = "assistant")
    (hlen : s.conversation_history.length = 15) :
    conversationAgentMessages sysPrompt s
      = ChatMessage.mk ChatRole.system sysPrompt ::
          (s.conversation_history.map msgToChatTotal ++ [⟨ChatRole.human, s.user_input⟩])
    ∧ (conversationAgentMessages sysPrompt s).length = 17
    ∧ ∀ (dh : List DSMessage), dh.length = 15 →
        deepSeekChatMessages sysPrompt m dh
          = DSMessage.mk "system" sysPrompt :: (dh.drop 5 ++ [⟨"user", m⟩]) := by
  have hmap := filterMap_msgToChat_eq_map s.conversation_history hroles
  refine ⟨?_, ?_, ?_⟩
  · simp [conversationAgentMessages, createMessages, hmap]
  · simp [conversationAgentMessages, createMessages, hmap, hlen]
  · intro dh hdh
    simp [deepSeekChatMessages, hdh]

/-- C5 witness: the concrete 15-turn history produces 17 messages. -/
theorem C5_history_window_witness :
    (conversationAgentMessages "sysC" exampleTalkState).length = 17 :=
  (C5_history_window "sysC" "hi" exampleTalkState (by decide) (by decide)).2.1

/-! ## Claim C6 -/

/-- C6: with an unavailable backend credential every service entry point
returns the deterministic demo response: two calls with identical inputs
are byte-identical (independent of anything the live path would produce),
and the demo response always reports `success` with `demo_mode` set. -/
theorem C6_demo_mode_determinism (apiKey : String)
    (h : checkApiAvailability apiKey = false)
    (code msg problem mode : String) (live1 live2 : DemoResponse)
    (uf : Option (List FileInfo)) :
    explainCodeService apiKey code mode live1 = explainCodeService apiKey code mode live2
    ∧ chatService apiKey msg live1 = chatService apiKey msg live2
    ∧ solveProblemService apiKey problem uf live1 = solveProblemService apiKey problem uf live2
    ∧ (explainCodeService apiKey code mode live1).success = true
    ∧ (explainCodeService apiKey code mode live1).demo_mode = true
    ∧ (chatService apiKey msg live1).success = true
    ∧ (chatService apiKey msg live1).demo_mode = true
    ∧ (solveProblemService apiKey problem uf live1).success = true
    ∧ (solveProblemService apiKey problem uf live1).demo_mode = true := by
  unfold explainCodeService chatService solveProblemService
  simp [h, createDemoResponse]

/-- C6 witness: with an empty key the chat service yields the demo response
regardless of the live result, and reports success. -/
theorem C6_demo_mode_determinism_witness :
    chatService "" "你好" (createDemoResponse "chat" "x" (ModeOrFiles.mode (some "full")))
      = chatService "" "你好" (createDemoResponse "analyze" "y" (ModeOrFiles.mode (some "full")))
    ∧ (chatService "" "你好"
        (createDemoResponse "chat" "x" (ModeOrFiles.mode (some "full")))).success = true := by
  have h := C6_demo_mode_determinism "" (by decide) "c" "你好" "p" "full"
    (createDemoResponse "chat" "x" (ModeOrFiles.mode (some "full")))
    (createDemoResponse "analyze" "y" (ModeOrFiles.mode (some "full"))) none
  exact ⟨h.2.1, h.2.2.2.2.2.1⟩

/-! ## Claim C7 -/

/-- C7 counterexample: a live Solve run whose backend call fails terminates
with an *empty* `code_solutions` list (the claim requires at least one
Solution for every run). -/
theorem C7_backend_failure_counterexample :
    (executeWorkflow (enginePipelines (failEnv "连接超时") 0) "rid-3" 0 1 "answer"
        "plot two variables" "s3" []).map (fun r => r.code_solutions)
      = Except.ok [] := by
  rfl

/-- C7 amended: a Solve run whose backend call succeeds (and whose input is
non-empty) ends with exactly the three parsed Solutions, each with
non-empty title/code/explanation/filename, preserved unchanged by the
validation and finalize stages; the demo path likewise carries exactly
three fully populated solutions.  On a backend failure the list stays
empty. -/
theorem C7_solve_solutions (resp problem : String) (hp : problem ≠ "")
    (fid sid : String) (t0 t t1 : ℚ) (hist : List Message) :
    (executeWorkflow (enginePipelines (okEnv resp) t) fid t0 t1 "answer" problem sid hist).map
        (fun r => r.code_solutions) = Except.ok (parseSolutions resp problem)
    ∧ (parseSolutions resp problem).length = 3
    ∧ (∀ sol ∈ parseSolutions resp problem,
        sol.title ≠ "" ∧ sol.code ≠ "" ∧ sol.explanation ≠ "" ∧ sol.filename ≠ "")
    ∧ (∀ (t2 : ℚ) (s : WorkflowState),
        (validateSolutionsNode t2 s).code_solutions = s.code_solutions)
    ∧ (∀ (t2 : ℚ) (s : WorkflowState),
        (finalizeNode t2 s).code_solutions = s.code_solutions)
    ∧ demoSolveSolutions.length = 3
    ∧ (∀ sol ∈ demoSolveSolutions,
        sol.title ≠ "" ∧ sol.code ≠ "" ∧ sol.explanation ≠ "" ∧ sol.filename ≠ "") := by
  have hval : ∀ (t2 : ℚ) (s : WorkflowState),
      (validateSolutionsNode t2 s).code_solutions = s.code_solutions := by
    intro t2 s
    rfl
  have hfin : ∀ (t2 : ℚ) (s : WorkflowState),
      (finalizeNode t2 s).code_solutions = s.code_solutions := by
    intro t2 s
    unfold finalizeNode
    rcases h : s.end_time with _ | et <;>
      by_cases h1 : s.errors = [] <;> by_cases h2 : s.warnings = [] <;>
      simp [h, h1, h2]
  refine ⟨?_, rfl, ?_, hval, hfin, rfl, ?_⟩
  · have hui : (analyzeProblemNode t
        (mkInitialState fid t0 "answer" problem sid hist)).user_input = problem := rfl
    have hsolver : ∀ s2 : WorkflowState, s2.user_input = problem →
        (solverProcess (okEnv resp).llm (okEnv resp).solverUserPrompt
            (okEnv resp).solverSystem t s2).code_solutions
          = parseSolutions resp problem := by
      intro s2 hs
      unfold solverProcess
      simp [hs, hp, okEnv, okLLM]
    have hpipe : enginePipelines (okEnv resp) t "answer"
        (mkInitialState fid t0 "answer" problem sid hist)
        = Except.ok (answerPipeline (okEnv resp) t
            (mkInitialState fid t0 "answer" problem sid hist)) := rfl
    simp only [executeWorkflow]
    rw [if_pos (Or.inr (Or.inl trivial)), hpipe]
    simp only [Except.map]
    show Except.ok _ = _
    unfold answerPipeline
    rw [hfin, hval, hsolver _ hui]
  · intro sol hsol
    simp only [parseSolutions, List.mem_cons, List.not_mem_nil, or_false] at hsol
    rcases hsol with h | h | h
    · subst h
      refine ⟨by simp, append3_length_ne_empty _ _ _ (by decide), by simp, by simp⟩
    · subst h
      exact ⟨by decide, by decide, by decide, by decide⟩
    · subst h
      exact ⟨by decide, by decide, by decide, by decide⟩
  · intro sol hsol
    simp only [demoSolveSolutions, List.mem_cons, List.not_mem_nil, or_false] at hsol
    rcases hsol with h | h | h <;> subst h <;>
      exact ⟨by decide, by decide, by decide, by decide⟩

/-- C7 witness: a concrete successful Solve run terminates with the three
parsed solutions. -/
theorem C7_solve_solutions_witness :
    (executeWorkflow (enginePipelines (okEnv "好的") 0) "rid" 0 1 "answer" "画一个图" "s" []).map
        (fun r => r.code_solutions) = Except.ok (parseSolutions "好的" "画一个图") :=
  (C7_solve_solutions "好的" "画一个图" (by decide) "rid" "s" 0 0 1 []).1

/-! ## Claim C8 -/

/-- C8 counterexample: a bare `if` without a parenthesis is not counted by
the code (the claim's keyword count would give 2), and at complexity
exactly 10 the code reports `low` while the claim's thresholds give
`medium`. -/
theorem C8_complexity_counterexample :
    cyclomaticComplexity "if x" = 1
    ∧ specCyclomaticComplexity "if x" = 2
    ∧ cyclomaticComplexity tenComplexityCode = 10
    ∧ (calculateComplexity tenComplexityCode).complexity_level = "low"
    ∧ specComplexityLevel 10 = "medium" := by
  refine ⟨by decide, by decide, by decide, by decide, by decide⟩

/-- C8 amended: complexity is `1 +` occurrences of `if(`/`for(`/`while(`
(keyword, optional whitespace, parenthesis), `repeat` followed by an open
brace, `&&` and `||`; nesting depth is the zero-floored maximal brace
balance; the level is `low` for complexity ≤ 10, `medium` for 11–20,
`high` above 20 — agreeing with the spec's thresholds exactly outside
complexity = 10. -/
theorem C8_complexity_rule (code : String) :
    (calculateComplexity code).cyclomatic_complexity = cyclomaticComplexity code
    ∧ (calculateComplexity code).max_nesting_depth = maxNesting code
    ∧ ((calculateComplexity code).complexity_level = "high"
        ↔ 20 < cyclomaticComplexity code)
    ∧ ((calculateComplexity code).complexity_level = "medium"
        ↔ (10 < cyclomaticComplexity code ∧ cyclomaticComplexity code ≤ 20))
    ∧ ((calculateComplexity code).complexity_level = "low"
        ↔ cyclomaticComplexity code ≤ 10)
    ∧ ((calculateComplexity code).complexity_level
          = specComplexityLevel (cyclomaticComplexity code)
        ↔ cyclomaticComplexity code ≠ 10) := by
  unfold calculateComplexity specComplexityLevel
  rcases lt_trichotomy (cyclomaticComplexity code) 10 with hc | hc | hc
  · have h1 : ¬ cyclomaticComplexity code > 20 := by omega
    have h2 : ¬ cyclomaticComplexity code > 10 := by omega
    have h3 : cyclomaticComplexity code ≠ 10 := by omega
    simp [h1, h2, hc, h3]
    omega
  · have h1 : ¬ cyclomaticComplexity code > 20 := by omega
    have h2 : ¬ cyclomaticComplexity code > 10 := by omega
    simp [h1, h2, hc]
  · by_cases h1 : cyclomaticComplexity code > 20
    · have h3 : ¬ cyclomaticComplexity code < 10 := by omega
      have h4 : ¬ cyclomaticComplexity code ≤ 20 := by omega
      simp [h1, h3, h4]
      omega
    · have h2 : cyclomaticComplexity code > 10 := by omega
      have h3 : ¬ cyclomaticComplexity code < 10 := by omega
      have h4 : cyclomaticComplexity code ≤ 20 := by omega
      simp [h1, h2, h3, h4]
      omega

/-- C8 witness: the level characterization instantiated at the concrete
complexity-10 input. -/
theorem C8_complexity_rule_witness :
    ((calculateComplexity tenComplexityCode).complexity_level = "low"
      ↔ cyclomaticComplexity tenComplexityCode ≤ 10) :=
  (C8_complexity_rule tenComplexityCode).2.2.2.2.1

/-! ## Claim C9 -/

/-- C9: `analyze` is a total function of the input text (its embedding
cannot throw; every helper is total, so the except-branch returning
`{error, quality_score: 0}` is unreachable) and the quality score is
always within [0, 100], in particular for the empty string. -/
theorem C9_analyze_score_bounds (code : String) :
    0 ≤ (analyze code).quality_score ∧ (analyze code).quality_score ≤ 100 := by
  unfold analyze calculateQualityScore
  exact ⟨le_max_left _ _, max_le (by norm_num) (min_le_left _ _)⟩

/-! ## Claim C10 -/

/-- C10: the Solver's `_parse_solutions` ignores the backend response: any
two responses produce the same list of exactly three Solutions, whose
titles, difficulties, packages and filenames are fixed constants, and
whose code bodies are constants apart from the problem text echoed into
the first solution. -/
theorem C10_parser_ignores_response (problem r1 r2 : String) :
    parseSolutions r1 problem = parseSolutions r2 problem
    ∧ (parseSolutions r1 problem).length = 3
    ∧ (parseSolutions r1 problem).map CodeSolution.title
        = ["基础解决方案", "进阶解决方案", "专业解决方案"]
    ∧ (parseSolutions r1 problem).map CodeSolution.difficulty
        = ["basic", "intermediate", "advanced"]
    ∧ (parseSolutions r1 problem).map CodeSolution.packages
        = [["base", "ggplot2"], ["dplyr", "ggplot2"], ["data.table", "plotly"]]
    ∧ (parseSolutions r1 problem).map CodeSolution.filename
        = ["basic_solution.R", "advanced_solution.R", "professional_solution.R"]
    ∧ ((parseSolutions r1 problem).map CodeSolution.code).head?
        = some ("# 基于您的问题：" ++ problem ++
            "\n\n# 方案一：基础实现\nlibrary(ggplot2)\ndata <- read.csv(\"data.csv\")\nresult <- summary(data)\nprint(result)") := by
  exact ⟨rfl, rfl, rfl, rfl, rfl, rfl, rfl⟩

end RAssistant
